import Mathlib

/-!
# Verification of the matrix-inversion profiling analyzer

Shallow embedding of `analyze_profile.py` (class `ProfileAnalyzer` and `main`):
record ingestion, per-implementation metric derivation, best-implementation
selection, and the three renderers (markdown, JSON, console).

Millisecond values and the derived throughput are modelled as rationals (`ℚ`);
Python float division by zero raises `ZeroDivisionError`, modelled by `Option`.
-/

namespace ProfileAnalyzer

/-- One row of the input CSV: columns `Implementation, Min_ms, Max_ms, Avg_ms`. -/
structure MeasurementRecord where
  implementation : String
  min_ms : ℚ
  max_ms : ℚ
  avg_ms : ℚ
deriving DecidableEq, Repr

/-- One value of the `analysis` dict built by `analyze_performance`
(line 54-60): the five derived fields for one implementation. -/
structure DerivedMetrics where
  min_ms : ℚ
  max_ms : ℚ
  avg_ms : ℚ
  target_met : Bool
  flops : ℚ
deriving DecidableEq, Repr

/-- The target-latency literal `5.0` hard-coded at line 58. -/
def TARGET_MS : ℚ := 5

/-- The FLOP-count literal `4 * 341**3 / 3` hard-coded at line 59. -/
def FLOP_COUNT : ℚ := 4 * 341 ^ 3 / 3

/-- Python float division: raises `ZeroDivisionError` when the divisor is
zero (modelled as `none`). -/
def pyDiv (a b : ℚ) : Option ℚ := if b = 0 then none else some (a / b)

/-- The dict value built for one implementation at lines 54-60 of
`analyze_performance`, from the first CSV row `r` for that implementation:
`min_ms`, `max_ms`, `avg_ms` copied verbatim, `target_met = avg_ms < 5.0`,
`flops = (4 * 341**3 / 3) / (avg_ms * 1e-3) / 1e9`. -/
def deriveMetrics (r : MeasurementRecord) : Option DerivedMetrics := do
  let g ← pyDiv FLOP_COUNT (r.avg_ms * (1 / 1000))
  let flops ← pyDiv g (10 ^ 9)
  pure { min_ms := r.min_ms, max_ms := r.max_ms, avg_ms := r.avg_ms,
         target_met := decide (r.avg_ms < TARGET_MS), flops := flops }

/-- `self.results_df['Implementation'].unique()` (line 51): the distinct
implementation names in order of first appearance in the table. -/
def uniqueNames : List MeasurementRecord → List String
  | [] => []
  | r :: rs => r.implementation :: (uniqueNames rs).filter (· ≠ r.implementation)

/-- `impl_data = df[df['Implementation'] == impl]` followed by `values[0]`
(lines 52-59): the first row whose `Implementation` column equals `name`. -/
def firstRow (rows : List MeasurementRecord) (name : String) :
    Option MeasurementRecord :=
  rows.find? (fun r => r.implementation == name)

/-- The body of the `for impl in ... .unique()` loop (lines 51-60), iterated
over a list of names: builds the insertion-ordered `analysis` dict as an
association list. -/
def analyzeLoop (rows : List MeasurementRecord) :
    List String → Option (List (String × DerivedMetrics))
  | [] => some []
  | n :: ns => do
    let r ← firstRow rows n
    let m ← deriveMetrics r
    let rest ← analyzeLoop rows ns
    pure ((n, m) :: rest)

/-- `analyze_performance` (lines 43-63): for each distinct implementation, in
order of first appearance, derive its metrics from its first row.
`none` models an uncaught `ZeroDivisionError`. -/
def analyze_performance (rows : List MeasurementRecord) :
    Option (List (String × DerivedMetrics)) :=
  analyzeLoop rows (uniqueNames rows)

/-- Python's built-in `min(items, key=...)` over a non-empty list, keyed by
`avg_ms`: scans left to right and replaces the current best only on a strictly
smaller key, so the first item achieving the minimum wins. -/
def minByAvgAux (best : String × DerivedMetrics) :
    List (String × DerivedMetrics) → String × DerivedMetrics
  | [] => best
  | y :: ys => minByAvgAux (if y.2.avg_ms < best.2.avg_ms then y else best) ys

/-- `min(self.profiling_data.items(), key=lambda x: x[1]['avg_ms'])` as called
by `generate_markdown_report` at lines 82-83; `none` models the `ValueError`
Python's `min` raises on an empty iterable (unreachable there: the call is
guarded by `if self.profiling_data:`). -/
def best_impl_markdown : List (String × DerivedMetrics) →
    Option (String × DerivedMetrics)
  | [] => none
  | x :: xs => some (minByAvgAux x xs)

/-- `min(self.profiling_data.items(), key=lambda x: x[1]['avg_ms'])` as called
by `print_summary` at line 206; same built-in call as in the markdown
renderer. -/
def best_impl_console : List (String × DerivedMetrics) →
    Option (String × DerivedMetrics)
  | [] => none
  | x :: xs => some (minByAvgAux x xs)

/-- The static header of the markdown report (lines 68-77): title, timestamp
line and the fixed target-specification block. The timestamp is rendered from
the clock, not from the analysis data; it is abstracted to its label here. -/
def mdHeader : List String :=
  ["# GPU Matrix Inversion Profiling Report", "**Generated:**",
   "## Executive Summary", "### Target Specification",
   "- **Matrix Size:** 341×341 complex symmetric", "- **GPU:** AMD MI100 / AI100",
   "- **Target Time:** <5 milliseconds (GPU execution only)",
   "- **Matrix Type:** Complex Hermitian (Symmetric)",
   "- **Precision:** Single (complex<float>)"]

/-- The static prose blocks of lines 101-156 (technical details, hardware
table, bottleneck analysis, recommendations, limitations, references),
abbreviated to their section headings: they are fixed boilerplate, written
unconditionally and independent of the analysis data. -/
def mdStaticSections : List String :=
  ["## Technical Details", "### Algorithm Overview",
   "### GPU Hardware Specifications (MI100/AI100)",
   "### Performance Bottleneck Analysis", "### Recommendations",
   "### Known Limitations", "## References"]

/-- The Key Results block (lines 80-87), data-driven from the best pick. -/
def mdKeyResults (best : String × DerivedMetrics) : List String :=
  ["### Key Results", "**Best Implementation:** " ++ best.1,
   "- **Average Time:** " ++ toString best.2.avg_ms ++ " ms",
   "- **Target Met:** " ++ (if best.2.target_met then "✓ Yes" else "✗ No"),
   "- **Estimated Performance:** " ++ toString best.2.flops ++ " GFLOPs"]

/-- One per-implementation table of the markdown report (lines 91-99). -/
def mdImplSection (p : String × DerivedMetrics) : List String :=
  ["### " ++ p.1, "| Metric | Value |", "|--------|-------|",
   "| Min Time | " ++ toString p.2.min_ms ++ " ms |",
   "| Max Time | " ++ toString p.2.max_ms ++ " ms |",
   "| Avg Time | " ++ toString p.2.avg_ms ++ " ms |",
   "| Target (<5 ms) | " ++ (if p.2.target_met then "✓ Met" else "✗ Not Met") ++ " |",
   "| Estimated GFLOPs | " ++ toString p.2.flops ++ " |"]

/-- `generate_markdown_report` (lines 65-158) as the list of lines it writes.
The data-driven Key Results and per-implementation blocks are guarded by
`if self.profiling_data:` (line 79); inside the guard the dict is non-empty,
so the `min` at lines 82-83 is over a non-empty iterable. `none` models an
uncaught exception escaping the renderer. -/
def generate_markdown_report (a : List (String × DerivedMetrics)) :
    Option (List String) := do
  let dataSection ←
    if a.isEmpty then pure []
    else do
      let best ← best_impl_markdown a
      pure (mdKeyResults best ++ ["## Detailed Performance Analysis"] ++
            (a.map mdImplSection).flatten)
  pure (mdHeader ++ dataSection ++ mdStaticSections)

/-- The JSON document written by `generate_json_report` (lines 162-178): the
fixed descriptive constants plus the full analysis dict. The ISO timestamp is
clock-derived and abstracted away. -/
structure JsonReport where
  gpu : String
  matrix_size : Nat
  matrix_type : String
  target_time_ms : ℚ
  implementations : List (String × DerivedMetrics)
  compute_units : Nat
  peak_flops_tflops : Nat
  memory_bandwidth_gb_s : Nat
  l1_cache_kb : Nat
  l2_cache_mb : Nat
  lds_per_cu_kb : Nat
  wavefront_size : Nat
deriving DecidableEq, Repr

/-- The `data` dict of lines 162-178 for a given analysis. -/
def jsonReportOf (a : List (String × DerivedMetrics)) : JsonReport :=
  { gpu := "AMD MI100/AI100", matrix_size := 341,
    matrix_type := "complex_symmetric", target_time_ms := 5,
    implementations := a, compute_units := 120, peak_flops_tflops := 40,
    memory_bandwidth_gb_s := 900, l1_cache_kb := 16, l2_cache_mb := 4,
    lds_per_cu_kb := 96, wavefront_size := 64 }

/-- `generate_json_report` (lines 160-183): pure serialization of the
already-derived analysis plus static hardware constants; involves no
minimum or division, hence never raises. -/
def generate_json_report (a : List (String × DerivedMetrics)) :
    Option JsonReport :=
  some (jsonReportOf a)

/-- The per-implementation block printed by `print_summary` (lines 196-202). -/
def summaryLines (p : String × DerivedMetrics) : List String :=
  [p.1 ++ ":", "  Min:     " ++ toString p.2.min_ms ++ " ms",
   "  Max:     " ++ toString p.2.max_ms ++ " ms",
   "  Avg:     " ++ toString p.2.avg_ms ++ " ms",
   "  Status:  " ++ (if p.2.target_met then "✓ Target Met" else "✗ Target Not Met"),
   "  GFLOPs:  " ++ toString p.2.flops]

/-- `print_summary` (lines 185-210) as the list of lines it prints. On an
empty dict the guard at lines 191-193 prints the no-data message and returns
before the `min` at line 206 is ever evaluated. -/
def print_summary (a : List (String × DerivedMetrics)) : Option (List String) :=
  let sep := String.mk (List.replicate 70 '=')
  let header := [sep, "PROFILING SUMMARY", sep]
  if a.isEmpty then some (header ++ ["✗ No profiling data available"])
  else do
    let best ← best_impl_console a
    pure (header ++ (a.map summaryLines).flatten ++
      [sep, "Best Implementation: " ++ best.1,
       "Best Time: " ++ toString best.2.avg_ms ++ " ms",
       "Target (<5 ms): " ++ (if best.2.target_met then "✓ ACHIEVED" else "✗ NOT MET"),
       sep])

/-- The failure raised by `pd.read_csv` and caught at lines 29-31. -/
inductive LoadError where
  | NotFoundError
deriving DecidableEq, Repr

/-- `load_results` (lines 23-31): read the primary CSV. The filesystem is a
map from paths to parsed tables (`none` = the path does not resolve, i.e.
`FileNotFoundError`). On success the parsed rows are returned in file order;
on failure the error is reported. -/
def load_results (fs : String → Option (List MeasurementRecord))
    (path : String) : Except LoadError (List MeasurementRecord) :=
  match fs path with
  | some rows => Except.ok rows
  | none => Except.error LoadError.NotFoundError

/-- The parsed command line (lines 214-223): positional `csv_file`, optional
`--rocprof` path, `--markdown`, `--json` flags, optional `--output` dir. -/
structure Args where
  csv_file : String
  rocprof : Option String
  markdown : Bool
  json : Bool
  output : Option String
deriving DecidableEq, Repr

/-- The observable outcome of one run of `main`: process exit code, the
markdown and JSON artifacts (`none` = not generated), and the console
summary lines. -/
structure MainOutcome where
  exitCode : Nat
  markdown_report : Option (List String)
  json_report : Option JsonReport
  console : List String
deriving Repr

/-- `main` (lines 213-251): load the primary CSV — on failure exit with
status 1 and generate no reports (lines 234-235); on success analyze, then
run the markdown renderer iff `args.markdown or (not args.json and not
args.rocprof)` (line 240), the JSON renderer iff `args.json or (not
args.markdown and not args.rocprof)` (line 245), and print the console
summary. The `--rocprof` table itself is never loaded by `main`. `none`
models a crash by an uncaught exception (non-zero exit, from the analysis
or a renderer). -/
def main (fs : String → Option (List MeasurementRecord)) (args : Args) :
    Option MainOutcome :=
  match load_results fs args.csv_file with
  | Except.error _ =>
      some { exitCode := 1, markdown_report := none, json_report := none,
             console := ["✗ File not found: " ++ args.csv_file] }
  | Except.ok rows => do
      let a ← analyze_performance rows
      let md ←
        if args.markdown || (!args.json && args.rocprof.isNone) then do
          let d ← generate_markdown_report a
          pure (some d)
        else pure (none : Option (List String))
      let js ←
        if args.json || (!args.markdown && args.rocprof.isNone) then do
          let d ← generate_json_report a
          pure (some d)
        else pure (none : Option JsonReport)
      let con ← print_summary a
      pure { exitCode := 0, markdown_report := md, json_report := js,
             console := con }

/-- The reference scenario's input table: rows
`("RocSOLVER", 2.1, 2.4, 2.3)` and `("Hybrid", 1.5, 1.8, 1.6)`. -/
def scenarioRows : List MeasurementRecord :=
  [⟨"RocSOLVER", 21/10, 12/5, 23/10⟩, ⟨"Hybrid", 3/2, 9/5, 8/5⟩]

/-! ## Lemmas about the selection rule -/

theorem minByAvgAux_le (l : List (String × DerivedMetrics)) :
    ∀ best, (minByAvgAux best l).2.avg_ms ≤ best.2.avg_ms ∧
      ∀ y ∈ l, (minByAvgAux best l).2.avg_ms ≤ y.2.avg_ms := by
  induction l with
  | nil => exact fun best => ⟨le_refl _, by simp⟩
  | cons y ys ih =>
    intro best
    simp only [minByAvgAux]
    by_cases hy : y.2.avg_ms < best.2.avg_ms
    · simp only [if_pos hy]
      obtain ⟨h1, h2⟩ := ih y
      exact ⟨le_of_lt (lt_of_le_of_lt h1 hy), by
        intro z hz
        rcases List.mem_cons.mp hz with rfl | hz
        · exact h1
        · exact h2 z hz⟩
    · simp only [if_neg hy]
      obtain ⟨h1, h2⟩ := ih best
      exact ⟨h1, by
        intro z hz
        rcases List.mem_cons.mp hz with rfl | hz
        · exact le_trans h1 (le_of_not_lt hy)
        · exact h2 z hz⟩

theorem minByAvgAux_first (l : List (String × DerivedMetrics)) :
    ∀ best, ∃ l₁ l₂, best :: l = l₁ ++ (minByAvgAux best l) :: l₂ ∧
      ∀ z ∈ l₁, (minByAvgAux best l).2.avg_ms < z.2.avg_ms := by
  induction l with
  | nil => exact fun best => ⟨[], [], rfl, by simp⟩
  | cons y ys ih =>
    intro best
    simp only [minByAvgAux]
    by_cases hy : y.2.avg_ms < best.2.avg_ms
    · simp only [if_pos hy]
      obtain ⟨l₁, l₂, hdec, hlt⟩ := ih y
      refine ⟨best :: l₁, l₂, by rw [List.cons_append, ← hdec], ?_⟩
      intro z hz
      rcases List.mem_cons.mp hz with rfl | hz
      · exact lt_of_le_of_lt (minByAvgAux_le ys y).1 hy
      · exact hlt z hz
    · simp only [if_neg hy]
      obtain ⟨l₁, l₂, hdec, hlt⟩ := ih best
      cases l₁ with
      | nil =>
        simp only [List.nil_append, List.cons.injEq] at hdec
        refine ⟨[], y :: ys, ?_, by simp⟩
        simp only [List.nil_append]
        rw [← hdec.1]
      | cons w l₁' =>
        simp only [List.cons_append, List.cons.injEq] at hdec
        obtain ⟨rfl, hys⟩ := hdec
        refine ⟨best :: y :: l₁', l₂, ?_, ?_⟩
        · rw [List.cons_append, List.cons_append, ← hys]
        · intro z hz
          have hwlt : (minByAvgAux best ys).2.avg_ms < best.2.avg_ms :=
            hlt best (List.mem_cons_self best l₁')
          rcases List.mem_cons.mp hz with rfl | hz
          · exact hwlt
          · rcases List.mem_cons.mp hz with rfl | hz
            · exact lt_of_lt_of_le hwlt (le_of_not_lt hy)
            · exact hlt z (List.mem_cons_of_mem best hz)

/-! ## Lemmas about metric derivation and the analysis loop -/

theorem deriveMetrics_eq_some {r : MeasurementRecord} (h : r.avg_ms ≠ 0) :
    deriveMetrics r = some ⟨r.min_ms, r.max_ms, r.avg_ms,
      decide (r.avg_ms < TARGET_MS),
      FLOP_COUNT / (r.avg_ms * (1 / 1000)) / 10 ^ 9⟩ := by
  have hz' : r.avg_ms * (1 / 1000) ≠ 0 := by simp [h]
  have h9 : ((10 : ℚ) ^ 9) ≠ 0 := by norm_num
  simp [deriveMetrics, pyDiv, h, hz', h9]

theorem deriveMetrics_spec {r : MeasurementRecord} {m : DerivedMetrics}
    (h : deriveMetrics r = some m) :
    r.avg_ms ≠ 0 ∧ m = ⟨r.min_ms, r.max_ms, r.avg_ms,
      decide (r.avg_ms < TARGET_MS),
      FLOP_COUNT / (r.avg_ms * (1 / 1000)) / 10 ^ 9⟩ := by
  by_cases hz : r.avg_ms = 0
  · simp [deriveMetrics, pyDiv, hz] at h
  · rw [deriveMetrics_eq_some hz] at h
    exact ⟨hz, (Option.some.injEq _ _ ▸ h).symm⟩

theorem mem_uniqueNames {rows : List MeasurementRecord} {n : String} :
    n ∈ uniqueNames rows ↔ ∃ r ∈ rows, r.implementation = n := by
  induction rows with
  | nil => simp [uniqueNames]
  | cons r rs ih =>
    simp only [uniqueNames, List.mem_cons, List.mem_filter, ih,
      decide_eq_true_eq]
    constructor
    · rintro (rfl | ⟨⟨r', hr', rfl⟩, hne⟩)
      · exact ⟨r, Or.inl rfl, rfl⟩
      · exact ⟨r', Or.inr hr', rfl⟩
    · rintro ⟨r', rfl | hr', rfl⟩
      · exact Or.inl rfl
      · by_cases he : r'.implementation = r.implementation
        · exact Or.inl he
        · exact Or.inr ⟨⟨r', hr', rfl⟩, he⟩

theorem uniqueNames_nodup (rows : List MeasurementRecord) :
    (uniqueNames rows).Nodup := by
  induction rows with
  | nil => simp [uniqueNames]
  | cons r rs ih =>
    simp only [uniqueNames, List.nodup_cons]
    refine ⟨fun hmem => ?_, ih.filter _⟩
    have := (List.mem_filter.mp hmem).2
    simp at this

theorem firstRow_mem {rows : List MeasurementRecord} {n : String}
    {r : MeasurementRecord} (h : firstRow rows n = some r) :
    r ∈ rows ∧ r.implementation = n := by
  refine ⟨List.mem_of_find?_eq_some h, ?_⟩
  have := List.find?_some h
  simpa using this

theorem firstRow_isSome {rows : List MeasurementRecord} {n : String}
    (h : ∃ r ∈ rows, r.implementation = n) :
    ∃ r, firstRow rows n = some r := by
  obtain ⟨r, hr, he⟩ := h
  have hs : (rows.find? (fun x => x.implementation == n)).isSome := by
    rw [List.find?_isSome]
    exact ⟨r, hr, by simp [he]⟩
  obtain ⟨r', hr'⟩ := Option.isSome_iff_exists.mp hs
  exact ⟨r', hr'⟩

theorem analyzeLoop_sound {rows : List MeasurementRecord} :
    ∀ {l : List String} {a : List (String × DerivedMetrics)},
      analyzeLoop rows l = some a →
      a.map Prod.fst = l ∧
        ∀ p ∈ a, ∃ r, firstRow rows p.1 = some r ∧ deriveMetrics r = some p.2 := by
  intro l
  induction l with
  | nil =>
    intro a h
    simp only [analyzeLoop, Option.some.injEq] at h
    subst h
    simp
  | cons n ns ih =>
    intro a h
    cases hfr : firstRow rows n with
    | none => simp [analyzeLoop, hfr] at h
    | some r =>
      cases hdm : deriveMetrics r with
      | none => simp [analyzeLoop, hfr, hdm] at h
      | some m =>
        cases hal : analyzeLoop rows ns with
        | none => simp [analyzeLoop, hfr, hdm, hal] at h
        | some rest =>
          rw [analyzeLoop] at h
          simp [hfr, hdm, hal] at h
          subst h
          obtain ⟨hmap, hcontent⟩ := ih hal
          refine ⟨by simp [hmap], ?_⟩
          intro p hp
          rcases List.mem_cons.mp hp with rfl | hp
          · exact ⟨r, hfr, hdm⟩
          · exact hcontent p hp

theorem analyzeLoop_total {rows : List MeasurementRecord} :
    ∀ {l : List String},
      (∀ n ∈ l, ∃ r, firstRow rows n = some r ∧ r.avg_ms ≠ 0) →
      ∃ a, analyzeLoop rows l = some a ∧ a.map Prod.fst = l := by
  intro l
  induction l with
  | nil => exact fun _ => ⟨[], rfl, rfl⟩
  | cons n ns ih =>
    intro h
    obtain ⟨r, hr, hz⟩ := h n (List.mem_cons_self n ns)
    obtain ⟨a, ha, hmap⟩ := ih (fun n' hn' => h n' (List.mem_cons_of_mem n hn'))
    refine ⟨(n, ⟨r.min_ms, r.max_ms, r.avg_ms, decide (r.avg_ms < TARGET_MS),
      FLOP_COUNT / (r.avg_ms * (1 / 1000)) / 10 ^ 9⟩) :: a, ?_, ?_⟩
    · simp [analyzeLoop, hr, deriveMetrics_eq_some hz, ha]
    · simp [hmap]

theorem analyze_performance_total {rows : List MeasurementRecord}
    (h : ∀ r ∈ rows, r.avg_ms ≠ 0) :
    ∃ a, analyze_performance rows = some a ∧
      a.map Prod.fst = uniqueNames rows := by
  apply analyzeLoop_total
  intro n hn
  obtain ⟨r0, hr0, he⟩ := mem_uniqueNames.mp hn
  obtain ⟨r, hr⟩ := firstRow_isSome ⟨r0, hr0, he⟩
  exact ⟨r, hr, h r (firstRow_mem hr).1⟩

/-! ## First-occurrence-wins: a later duplicate row changes nothing -/

theorem uniqueNames_append_new {rows : List MeasurementRecord}
    {d : MeasurementRecord}
    (h : d.implementation ∉ rows.map (·.implementation)) :
    uniqueNames (rows ++ [d]) = uniqueNames rows ++ [d.implementation] := by
  induction rows with
  | nil => simp [uniqueNames]
  | cons x rs ih =>
    simp only [List.map_cons, List.mem_cons, not_or] at h
    obtain ⟨hne, hmem⟩ := h
    simp only [List.cons_append, uniqueNames, List.append_eq]
    rw [ih hmem, List.filter_append]
    simp [hne]

theorem uniqueNames_append_dup {rows : List MeasurementRecord}
    {d : MeasurementRecord}
    (h : d.implementation ∈ rows.map (·.implementation)) :
    uniqueNames (rows ++ [d]) = uniqueNames rows := by
  induction rows with
  | nil => simp at h
  | cons x rs ih =>
    simp only [List.map_cons, List.mem_cons] at h
    simp only [List.cons_append, uniqueNames, List.append_eq]
    by_cases hmem : d.implementation ∈ rs.map (·.implementation)
    · rw [ih hmem]
    · have hne : d.implementation = x.implementation := h.resolve_right hmem
      rw [uniqueNames_append_new hmem, List.filter_append]
      simp [hne]

theorem firstRow_append_of_isSome {rows extra : List MeasurementRecord}
    {n : String} {r : MeasurementRecord} (h : firstRow rows n = some r) :
    firstRow (rows ++ extra) n = some r := by
  simp [firstRow, List.find?_append, show rows.find?
    (fun x => x.implementation == n) = some r from h]

theorem analyzeLoop_congr {rows₁ rows₂ : List MeasurementRecord} :
    ∀ {l : List String}, (∀ n ∈ l, firstRow rows₁ n = firstRow rows₂ n) →
      analyzeLoop rows₁ l = analyzeLoop rows₂ l := by
  intro l
  induction l with
  | nil => exact fun _ => rfl
  | cons n ns ih =>
    intro h
    rw [analyzeLoop, analyzeLoop, h n (List.mem_cons_self n ns),
      ih (fun n' hn' => h n' (List.mem_cons_of_mem n hn'))]

theorem analyze_performance_append_dup {rows : List MeasurementRecord}
    {d : MeasurementRecord}
    (h : d.implementation ∈ rows.map (·.implementation)) :
    analyze_performance (rows ++ [d]) = analyze_performance rows := by
  unfold analyze_performance
  rw [uniqueNames_append_dup h]
  apply analyzeLoop_congr
  intro n hn
  obtain ⟨r0, hr0, he⟩ := mem_uniqueNames.mp hn
  obtain ⟨r, hr⟩ := firstRow_isSome ⟨r0, hr0, he⟩
  rw [firstRow_append_of_isSome hr, hr]

/-! ## Renderer totality -/

theorem generate_markdown_report_total (a : List (String × DerivedMetrics)) :
    ∃ d, generate_markdown_report a = some d := by
  cases a with
  | nil => exact ⟨_, rfl⟩
  | cons x xs =>
    simp only [generate_markdown_report, best_impl_markdown,
      List.isEmpty_cons, Bool.false_eq_true, if_false, Option.some_bind]
    exact ⟨_, rfl⟩

theorem print_summary_total (a : List (String × DerivedMetrics)) :
    ∃ d, print_summary a = some d := by
  cases a with
  | nil => exact ⟨_, rfl⟩
  | cons x xs =>
    simp only [print_summary, best_impl_console, List.isEmpty_cons,
      Bool.false_eq_true, if_false, Option.some_bind]
    exact ⟨_, rfl⟩

/-! ## Lemmas about `main` -/

theorem main_load_failure {fs : String → Option (List MeasurementRecord)}
    {args : Args} (h : fs args.csv_file = none) :
    main fs args = some ⟨1, none, none,
      ["✗ File not found: " ++ args.csv_file]⟩ := by
  simp [main, load_results, h]

theorem main_success {fs : String → Option (List MeasurementRecord)}
    {args : Args} {rows : List MeasurementRecord}
    (hload : fs args.csv_file = some rows)
    (hz : ∀ r ∈ rows, r.avg_ms ≠ 0) :
    ∃ o, main fs args = some o ∧ o.exitCode = 0 ∧
      o.markdown_report.isSome =
        (args.markdown || (!args.json && args.rocprof.isNone)) ∧
      o.json_report.isSome =
        (args.json || (!args.markdown && args.rocprof.isNone)) := by
  obtain ⟨a, ha, -⟩ := analyze_performance_total hz
  obtain ⟨md, hmd⟩ := generate_markdown_report_total a
  obtain ⟨con, hcon⟩ := print_summary_total a
  refine ⟨⟨0,
    if args.markdown || (!args.json && args.rocprof.isNone)
      then some md else none,
    if args.json || (!args.markdown && args.rocprof.isNone)
      then some (jsonReportOf a) else none, con⟩, ?_, rfl, ?_, ?_⟩
  · cases h₁ : (args.markdown || (!args.json && args.rocprof.isNone)) <;>
      cases h₂ : (args.json || (!args.markdown && args.rocprof.isNone)) <;>
      simp [main, load_results, hload, ha, hmd, hcon, generate_json_report,
        h₁, h₂]
  · cases h₁ : (args.markdown || (!args.json && args.rocprof.isNone)) <;>
      simp [h₁]
  · cases h₂ : (args.json || (!args.markdown && args.rocprof.isNone)) <;>
      simp [h₂]

/-! ## Evaluation of the reference scenario -/

theorem scenario_eval : analyze_performance scenarioRows =
    some [("RocSOLVER", ⟨21/10, 12/5, 23/10, true, 39651821/1725000⟩),
          ("Hybrid", ⟨3/2, 9/5, 8/5, true, 39651821/1200000⟩)] := by
  have h1 : uniqueNames scenarioRows = ["RocSOLVER", "Hybrid"] := rfl
  have h2 : firstRow scenarioRows "RocSOLVER" =
      some ⟨"RocSOLVER", 21/10, 12/5, 23/10⟩ := rfl
  have h3 : firstRow scenarioRows "Hybrid" =
      some ⟨"Hybrid", 3/2, 9/5, 8/5⟩ := rfl
  have h4 : deriveMetrics ⟨"RocSOLVER", 21/10, 12/5, 23/10⟩ =
      some ⟨21/10, 12/5, 23/10, true, 39651821/1725000⟩ := by
    norm_num [deriveMetrics, pyDiv, FLOP_COUNT, TARGET_MS]
  have h5 : deriveMetrics ⟨"Hybrid", 3/2, 9/5, 8/5⟩ =
      some ⟨3/2, 9/5, 8/5, true, 39651821/1200000⟩ := by
    norm_num [deriveMetrics, pyDiv, FLOP_COUNT, TARGET_MS]
  simp [analyze_performance, analyzeLoop, h1, h2, h3, h4, h5]

/-! ## The claims -/

/-- C1: for every non-empty AnalysisResult, the markdown report's best pick
and the console summary's best pick are the same entry; that entry has the
minimum avg_ms, and every entry inserted before it has strictly larger
avg_ms, so among entries sharing the minimum the smallest insertion index
is selected. -/
theorem C1_best_pick_min_first_and_agree (a : List (String × DerivedMetrics))
    (h : a ≠ []) :
    ∃ b, best_impl_markdown a = some b ∧ best_impl_console a = some b ∧
      (∀ y ∈ a, b.2.avg_ms ≤ y.2.avg_ms) ∧
      ∃ l₁ l₂, a = l₁ ++ b :: l₂ ∧ ∀ z ∈ l₁, b.2.avg_ms < z.2.avg_ms := by
  cases a with
  | nil => exact absurd rfl h
  | cons x xs =>
    refine ⟨minByAvgAux x xs, rfl, rfl, ?_, ?_⟩
    · intro y hy
      obtain ⟨h1, h2⟩ := minByAvgAux_le xs x
      rcases List.mem_cons.mp hy with rfl | hy
      · exact h1
      · exact h2 y hy
    · exact minByAvgAux_first xs x

/-- C1 witness: the tie case: entries B and C share the minimal avg_ms and
the earlier-inserted B is picked by both renderers. -/
theorem C1_best_pick_witness :
    ∃ b, best_impl_markdown
        [("A", (⟨1, 3, 2, true, 1⟩ : DerivedMetrics)),
         ("B", ⟨1, 3, 1, true, 1⟩), ("C", ⟨1, 3, 1, true, 1⟩)] = some b ∧
      best_impl_console
        [("A", (⟨1, 3, 2, true, 1⟩ : DerivedMetrics)),
         ("B", ⟨1, 3, 1, true, 1⟩), ("C", ⟨1, 3, 1, true, 1⟩)] = some b ∧
      (∀ y ∈ [("A", (⟨1, 3, 2, true, 1⟩ : DerivedMetrics)),
         ("B", ⟨1, 3, 1, true, 1⟩), ("C", ⟨1, 3, 1, true, 1⟩)],
        b.2.avg_ms ≤ y.2.avg_ms) ∧
      ∃ l₁ l₂, [("A", (⟨1, 3, 2, true, 1⟩ : DerivedMetrics)),
         ("B", ⟨1, 3, 1, true, 1⟩), ("C", ⟨1, 3, 1, true, 1⟩)] =
          l₁ ++ b :: l₂ ∧ ∀ z ∈ l₁, b.2.avg_ms < z.2.avg_ms :=
  C1_best_pick_min_first_and_agree _ (by simp)

/-- C2: whenever metrics are derived for a record, target_met is exactly the
strict comparison avg_ms < TARGET_MS with TARGET_MS = 5; in particular at
avg_ms = 5 the flag is false. -/
theorem C2_target_met_strict (r : MeasurementRecord) (m : DerivedMetrics)
    (h : deriveMetrics r = some m) :
    (m.target_met = true ↔ r.avg_ms < TARGET_MS) ∧
      (r.avg_ms = TARGET_MS → m.target_met = false) := by
  obtain ⟨-, rfl⟩ := deriveMetrics_spec h
  refine ⟨by simp, fun he => ?_⟩
  simp [he]

/-- C2 witness: the boundary record with avg_ms = 5.0. -/
theorem C2_target_met_witness :
    ∃ m, deriveMetrics ⟨"X", 5, 5, 5⟩ = some m ∧
      ((m.target_met = true ↔ (5 : ℚ) < TARGET_MS) ∧
        ((5 : ℚ) = TARGET_MS → m.target_met = false)) :=
  ⟨_, deriveMetrics_eq_some (by norm_num),
    C2_target_met_strict ⟨"X", 5, 5, 5⟩ _ (deriveMetrics_eq_some (by norm_num))⟩

/-- C3 counterexample: in the reference scenario the throughput the code
derives for Hybrid is 39651821/1200000 ≈ 33.04 GFLOPs, which is not within
1% of 98.0 GFLOPs, so the claimed approximate value is false. -/
theorem C3_hybrid_flops_counterexample :
    ∃ a, analyze_performance scenarioRows = some a ∧
      ∃ m, ("Hybrid", m) ∈ a ∧ m.flops = 39651821 / 1200000 ∧
        ¬ |m.flops - 98| ≤ 98 / 100 := by
  refine ⟨_, scenario_eval, ⟨3/2, 9/5, 8/5, true, 39651821/1200000⟩,
    by simp, rfl, ?_⟩
  show ¬ |(39651821 : ℚ) / 1200000 - 98| ≤ 98 / 100
  rw [abs_sub_comm, abs_of_pos (by norm_num)]
  norm_num

/-- C3 (amended): for every record with avg_ms > 0 the derived throughput
equals (4 * 341 ^ 3 / 3) / (avg_ms * 1e-3) / 1e9, and in the reference
scenario the value for Hybrid is approximately 33.04 GFLOPs (within 1%) —
not the 98.0 GFLOPs stated in the original claim. -/
theorem C3_flops_formula_amended :
    (∀ (r : MeasurementRecord) (m : DerivedMetrics), 0 < r.avg_ms →
      deriveMetrics r = some m →
      m.flops = (4 * 341 ^ 3 / 3) / (r.avg_ms * (1 / 1000)) / 10 ^ 9) ∧
    ∃ a, analyze_performance scenarioRows = some a ∧
      ∃ m, ("Hybrid", m) ∈ a ∧
        |m.flops - 3304 / 100| ≤ (3304 / 100) / 100 := by
  constructor
  · intro r m _ hm
    obtain ⟨-, rfl⟩ := deriveMetrics_spec hm
    rfl
  · refine ⟨_, scenario_eval, ⟨3/2, 9/5, 8/5, true, 39651821/1200000⟩,
      by simp, ?_⟩
    show |(39651821 : ℚ) / 1200000 - 3304 / 100| ≤ (3304 / 100) / 100
    rw [abs_of_pos (by norm_num)]
    norm_num

/-- C3 witness: the formula conjunct applied to the Hybrid record. -/
theorem C3_flops_formula_witness :
    ∃ m, deriveMetrics ⟨"Hybrid", 3/2, 9/5, 8/5⟩ = some m ∧
      m.flops = (4 * 341 ^ 3 / 3) / ((8 / 5 : ℚ) * (1 / 1000)) / 10 ^ 9 :=
  ⟨_, deriveMetrics_eq_some (by norm_num),
    C3_flops_formula_amended.1 ⟨"Hybrid", 3/2, 9/5, 8/5⟩ _ (by norm_num)
      (deriveMetrics_eq_some (by norm_num))⟩

/-- C4: the analysis maps the distinct implementation names, in order of
first appearance and without repetition, to metrics copied verbatim from the
first row bearing each name; appending a duplicate row for an
already-present name leaves the analysis unchanged. -/
theorem C4_first_occurrence_wins (rows : List MeasurementRecord) :
    (∀ a, analyze_performance rows = some a →
      a.map Prod.fst = uniqueNames rows ∧
      ∀ p ∈ a, ∃ r, firstRow rows p.1 = some r ∧ p.2.min_ms = r.min_ms ∧
        p.2.max_ms = r.max_ms ∧ p.2.avg_ms = r.avg_ms) ∧
    (uniqueNames rows).Nodup ∧
    (∀ n, n ∈ uniqueNames rows ↔ ∃ r ∈ rows, r.implementation = n) ∧
    ∀ d : MeasurementRecord, d.implementation ∈ rows.map (·.implementation) →
      analyze_performance (rows ++ [d]) = analyze_performance rows := by
  refine ⟨?_, uniqueNames_nodup rows, fun n => mem_uniqueNames,
    fun d hd => analyze_performance_append_dup hd⟩
  intro a ha
  obtain ⟨hmap, hcontent⟩ := analyzeLoop_sound ha
  refine ⟨hmap, fun p hp => ?_⟩
  obtain ⟨r, hr, hm⟩ := hcontent p hp
  obtain ⟨-, heq⟩ := deriveMetrics_spec hm
  exact ⟨r, hr, by rw [heq], by rw [heq], by rw [heq]⟩

/-- C4 witness: a second row for "A" does not alter the analysis. -/
theorem C4_first_occurrence_witness :
    analyze_performance ([⟨"A", 1, 2, 2⟩] ++ [⟨"A", 7, 8, 9⟩]) =
      analyze_performance [⟨"A", 1, 2, 2⟩] :=
  (C4_first_occurrence_wins [⟨"A", 1, 2, 2⟩]).2.2.2 ⟨"A", 7, 8, 9⟩ (by simp)

/-- C5: a header-only table yields an empty analysis; the markdown, JSON and
console renderers all return output rather than raising, the minimum over
zero items is indeed undefined (the bare builtin returns none), and the
console renderer instead prints the no-data indicator. -/
theorem C5_empty_input_graceful :
    analyze_performance [] = some [] ∧
    (∃ d, generate_markdown_report [] = some d) ∧
    generate_json_report [] = some (jsonReportOf []) ∧
    best_impl_console [] = none ∧
    ∃ out, print_summary [] = some out ∧
      "✗ No profiling data available" ∈ out := by
  refine ⟨rfl, ⟨_, rfl⟩, rfl, rfl, _, rfl, ?_⟩
  simp [print_summary]

/-- C6: when the primary input does not resolve, main exits with status 1
and produces neither report artifact; when it resolves (to rows satisfying
the avg_ms ≠ 0 pipeline precondition), main exits with status 0 — whatever
the optional rocprof argument is, since main never loads it. -/
theorem C6_exit_behavior (fs : String → Option (List MeasurementRecord))
    (args : Args) :
    (fs args.csv_file = none →
      ∃ o, main fs args = some o ∧ o.exitCode ≠ 0 ∧
        o.markdown_report = none ∧ o.json_report = none) ∧
    ∀ rows, fs args.csv_file = some rows → (∀ r ∈ rows, r.avg_ms ≠ 0) →
      ∃ o, main fs args = some o ∧ o.exitCode = 0 := by
  constructor
  · intro h
    exact ⟨_, main_load_failure h, one_ne_zero, rfl, rfl⟩
  · intro rows hload hz
    obtain ⟨o, ho, h0, -, -⟩ := main_success hload hz
    exact ⟨o, ho, h0⟩

/-- C6 witness: a missing primary input (exit 1, no artifacts) and a
resolvable one with a missing rocprof path (exit 0). -/
theorem C6_exit_behavior_witness :
    (∃ o, main (fun _ => none)
        ⟨"results.csv", some "rocprof.csv", false, false, none⟩ = some o ∧
      o.exitCode ≠ 0 ∧ o.markdown_report = none ∧ o.json_report = none) ∧
    ∃ o, main (fun p => if p = "results.csv" then some [⟨"A", 1, 2, 2⟩] else none)
        ⟨"results.csv", some "rocprof.csv", false, false, none⟩ = some o ∧
      o.exitCode = 0 :=
  ⟨(C6_exit_behavior (fun _ => none)
      ⟨"results.csv", some "rocprof.csv", false, false, none⟩).1 rfl,
   (C6_exit_behavior (fun p => if p = "results.csv" then some [⟨"A", 1, 2, 2⟩] else none)
      ⟨"results.csv", some "rocprof.csv", false, false, none⟩).2
      [⟨"A", 1, 2, 2⟩] rfl (by norm_num)⟩

/-- C7: renderer selection, for every combination of flags, on a loadable
primary input (satisfying the avg_ms ≠ 0 precondition): the markdown
artifact is produced iff the markdown flag is set or (no JSON flag and no
rocprof flag); dually for the JSON artifact. In particular the markdown flag
runs the markdown renderer, the JSON flag runs the JSON renderer, both flags
run both, and neither renderer flag with no rocprof flag runs both. -/
theorem C7_renderer_flag_selection (fs : String → Option (List MeasurementRecord))
    (csv : String) (rp : Option String) (m j : Bool) (outd : Option String)
    (rows : List MeasurementRecord) (hload : fs csv = some rows)
    (hz : ∀ r ∈ rows, r.avg_ms ≠ 0) :
    ∃ o, main fs ⟨csv, rp, m, j, outd⟩ = some o ∧
      o.markdown_report.isSome = (m || (!j && rp.isNone)) ∧
      o.json_report.isSome = (j || (!m && rp.isNone)) ∧
      (m = true → o.markdown_report.isSome = true) ∧
      (j = true → o.json_report.isSome = true) ∧
      (m = false → j = false → rp = none →
        o.markdown_report.isSome = true ∧ o.json_report.isSome = true) := by
  obtain ⟨o, ho, -, hmd, hjs⟩ :=
    @main_success fs ⟨csv, rp, m, j, outd⟩ rows hload hz
  refine ⟨o, ho, hmd, hjs, ?_, ?_, ?_⟩
  · intro hm
    rw [hmd]
    simp [hm]
  · intro hj
    rw [hjs]
    simp [hj]
  · intro hm hj hrp
    rw [hmd, hjs]
    simp [hm, hj, hrp]

/-- C7 witness: neither renderer flag and no rocprof flag: both artifacts
are produced. -/
theorem C7_renderer_flag_witness :
    ∃ o, main (fun _ => some [⟨"A", 1, 2, 2⟩])
        ⟨"results.csv", none, false, false, none⟩ = some o ∧
      o.markdown_report.isSome = (false || (!false && (none : Option String).isNone)) ∧
      o.json_report.isSome = (false || (!false && (none : Option String).isNone)) ∧
      (false = true → o.markdown_report.isSome = true) ∧
      (false = true → o.json_report.isSome = true) ∧
      (false = false → false = false → (none : Option String) = none →
        o.markdown_report.isSome = true ∧ o.json_report.isSome = true) :=
  C7_renderer_flag_selection (fun _ => some [⟨"A", 1, 2, 2⟩]) "results.csv"
    none false false none [⟨"A", 1, 2, 2⟩] rfl (by norm_num)

/-- C8: the load operation returns the parsed measurement records, in file
order, when the source resolves, and fails with NotFoundError when it does
not. -/
theorem C8_load_results_contract (fs : String → Option (List MeasurementRecord))
    (path : String) :
    (∀ rows, fs path = some rows → load_results fs path = Except.ok rows) ∧
    (fs path = none →
      load_results fs path = Except.error LoadError.NotFoundError) := by
  constructor
  · intro rows h
    simp [load_results, h]
  · intro h
    simp [load_results, h]

/-- C8 witness: one resolvable and one unresolvable path. -/
theorem C8_load_results_witness :
    load_results (fun p => if p = "results.csv" then some [⟨"A", 1, 2, 2⟩] else none)
      "results.csv" = Except.ok [⟨"A", 1, 2, 2⟩] ∧
    load_results (fun p => if p = "results.csv" then some [⟨"A", 1, 2, 2⟩] else none)
      "missing.csv" = Except.error LoadError.NotFoundError :=
  ⟨(C8_load_results_contract (fun p => if p = "results.csv"
      then some [⟨"A", 1, 2, 2⟩] else none) "results.csv").1 _ rfl,
   (C8_load_results_contract (fun p => if p = "results.csv"
      then some [⟨"A", 1, 2, 2⟩] else none) "missing.csv").2 rfl⟩

/-- C9: for two records identical but for avg_ms, both positive, the larger
avg_ms yields an estimated throughput that is not larger. -/
theorem C9_flops_antitone (r₁ r₂ : MeasurementRecord) (m₁ m₂ : DerivedMetrics)
    (_hname : r₁.implementation = r₂.implementation)
    (_hmin : r₁.min_ms = r₂.min_ms) (_hmax : r₁.max_ms = r₂.max_ms)
    (h₁ : 0 < r₁.avg_ms) (_h₂ : 0 < r₂.avg_ms) (hle : r₁.avg_ms ≤ r₂.avg_ms)
    (hm₁ : deriveMetrics r₁ = some m₁) (hm₂ : deriveMetrics r₂ = some m₂) :
    m₂.flops ≤ m₁.flops := by
  obtain ⟨-, rfl⟩ := deriveMetrics_spec hm₁
  obtain ⟨-, rfl⟩ := deriveMetrics_spec hm₂
  show FLOP_COUNT / (r₂.avg_ms * (1 / 1000)) / 10 ^ 9 ≤
    FLOP_COUNT / (r₁.avg_ms * (1 / 1000)) / 10 ^ 9
  have hFC : (0 : ℚ) ≤ FLOP_COUNT := by norm_num [FLOP_COUNT]
  gcongr

/-- C9 witness: the scenario averages 1.6 ms and 2.3 ms. -/
theorem C9_flops_antitone_witness :
    ∃ m₁ m₂, deriveMetrics ⟨"A", 1, 2, 8/5⟩ = some m₁ ∧
      deriveMetrics ⟨"A", 1, 2, 23/10⟩ = some m₂ ∧ m₂.flops ≤ m₁.flops :=
  ⟨_, _, deriveMetrics_eq_some (by norm_num),
    deriveMetrics_eq_some (by norm_num),
    C9_flops_antitone ⟨"A", 1, 2, 8/5⟩ ⟨"A", 1, 2, 23/10⟩ _ _ rfl rfl rfl
      (by norm_num) (by norm_num) (by norm_num)
      (deriveMetrics_eq_some (by norm_num))
      (deriveMetrics_eq_some (by norm_num))⟩

/-- C10: the flops division has no in-code guard, but whenever every row has
a nonzero Avg_ms the analysis returns a result (no ZeroDivisionError) with
one entry per distinct implementation name; in particular every name
occurring in the table has a metrics entry. -/
theorem C10_no_division_error (rows : List MeasurementRecord)
    (h : ∀ r ∈ rows, r.avg_ms ≠ 0) :
    ∃ a, analyze_performance rows = some a ∧
      a.map Prod.fst = uniqueNames rows ∧
      ∀ n, n ∈ rows.map (·.implementation) → ∃ m, (n, m) ∈ a := by
  obtain ⟨a, ha, hmap⟩ := analyze_performance_total h
  refine ⟨a, ha, hmap, fun n hn => ?_⟩
  have hu : n ∈ uniqueNames rows := by
    rw [mem_uniqueNames]
    obtain ⟨r, hr, he⟩ := List.mem_map.mp hn
    exact ⟨r, hr, he⟩
  rw [← hmap] at hu
  obtain ⟨⟨n', mm⟩, hp, hfst⟩ := List.mem_map.mp hu
  cases hfst
  exact ⟨mm, hp⟩

/-- C10 witness: a two-implementation table with nonzero averages. -/
theorem C10_no_division_witness :
    ∃ a, analyze_performance [⟨"A", 1, 2, 2⟩, ⟨"B", 1, 2, 3⟩] = some a ∧
      a.map Prod.fst = uniqueNames [⟨"A", 1, 2, 2⟩, ⟨"B", 1, 2, 3⟩] ∧
      ∀ n, n ∈ [(⟨"A", 1, 2, 2⟩ : MeasurementRecord),
        ⟨"B", 1, 2, 3⟩].map (·.implementation) → ∃ m, (n, m) ∈ a :=
  C10_no_division_error [⟨"A", 1, 2, 2⟩, ⟨"B", 1, 2, 3⟩] (by norm_num)

end ProfileAnalyzer
